import Mathlib

/-!
Verification development for the Velora/Aurora client-side event-tracking
layer (Adobe Client Data Layer glue code).

The JavaScript sources are shallowly embedded as pure Lean functions over an
explicit system state:
* `Velora.JSVal` models the JavaScript values that flow through the product
  normalizer (strings, numbers incl. NaN, booleans, null, undefined),
* `Velora.JSProduct` models a JS object used as a product descriptor (every
  key optional, as in JS),
* `Velora.DLEvent` models an entry of `window.adobeDataLayer`,
* `Velora.Storage` models the sessionStorage keys used by the repository,
* `Velora.SysState` bundles the data layer, storage, the console-error
  channel, the number of `preventDefault` calls and the scheduled
  (setTimeout) navigations.

JavaScript's `Number(string)` and `String(number)` conversions are not
re-implemented; instead every definition that needs them is parametrised by
a `JsPrims` record, and the theorems hold for every choice of these
primitives.
-/

namespace Velora

/-- A JavaScript number: either a (finite) rational or NaN.  The code under
verification performs no arithmetic on numbers, only coercions and
truthiness tests, so this model is exact for its purposes. -/
inductive JNum where
  | fin (q : ℚ)
  | nan
deriving DecidableEq, Repr

/-- The JavaScript values that occur in product descriptors. -/
inductive JSVal where
  | vstr (s : String)
  | vnum (n : JNum)
  | vbool (b : Bool)
  | vnull
  | vundefined
deriving DecidableEq, Repr

/-- JavaScript truthiness. -/
def truthy : JSVal → Bool
  | .vstr s => s ≠ ""
  | .vnum (.fin q) => q ≠ 0
  | .vnum .nan => false
  | .vbool b => b
  | .vnull => false
  | .vundefined => false

/-- JavaScript `a || b` on values. -/
def jsOrV (a b : JSVal) : JSVal := if truthy a then a else b

/-- Reading a possibly-absent object key yields `undefined`. -/
def fld (o : Option JSVal) : JSVal := o.getD .vundefined

/-- JS `a || b` where `a` is a possibly-absent string option (absent and the
empty string are both falsy). -/
def jsOrS (a : Option String) (b : String) : String :=
  match a with
  | some s => if s = "" then b else s
  | none => b

/-- The string/number conversion primitives of the JS runtime.  All theorems
are stated for an arbitrary choice of these. -/
structure JsPrims where
  strToNum : String → JNum
  numToStr : JNum → String

/-- JavaScript `Number(v)` coercion (string parsing delegated to `jp`). -/
def toNumber (jp : JsPrims) : JSVal → JNum
  | .vstr s => jp.strToNum s
  | .vnum n => n
  | .vbool b => .fin (if b then 1 else 0)
  | .vnull => .fin 0
  | .vundefined => .nan

/-- JavaScript `String(v)` coercion (number printing delegated to `jp`). -/
def jsToString (jp : JsPrims) : JSVal → String
  | .vstr s => s
  | .vnum n => jp.numToStr n
  | .vbool b => if b then "true" else "false"
  | .vnull => "null"
  | .vundefined => "undefined"

/-- JavaScript `Number(x) || d`: NaN and `0` fall back to the default. -/
def numOr (n : JNum) (d : ℚ) : ℚ :=
  match n with
  | .fin q => if q = 0 then d else q
  | .nan => d

/-- A JS object used as a product descriptor anywhere in the repository
(catalog entries, cart entries, event payloads, normalizer output).  Every
key is optional, exactly as in JS; absent key = `none`. -/
structure JSProduct where
  productID : Option JSVal := none
  id : Option JSVal := none
  sku : Option JSVal := none
  SKU : Option JSVal := none
  productName : Option JSVal := none
  name : Option JSVal := none
  product_name : Option JSVal := none
  category : Option JSVal := none
  productCategory : Option JSVal := none
  price : Option JSVal := none
  priceTotal : Option JSVal := none
  unitPrice : Option JSVal := none
  quantity : Option JSVal := none
  qty : Option JSVal := none
  brand : Option JSVal := none
  image : Option JSVal := none
  imageUrl : Option JSVal := none
  color : Option JSVal := none
  size : Option JSVal := none
  currency : Option JSVal := none
  currencyCode : Option JSVal := none
  linkPosition : Option JSVal := none
  linkType : Option JSVal := none
deriving DecidableEq, Repr

/-- The `normalizeProduct` from the XDM normalizer (README.md bundle,
`adl-xdm-normalizer`): a non-object input yields `null`; otherwise the
heterogeneous source keys are reconciled into the canonical shape
`{SKU, productID, productName, productCategory, price, quantity, brand,
image}`. -/
def normalizeProduct (jp : JsPrims) (source : Option JSProduct) : Option JSProduct :=
  match source with
  | none => none
  | some s =>
    let id := jsOrV (fld s.productID) (jsOrV (fld s.id) (jsOrV (fld s.sku)
      (jsOrV (fld s.SKU) (.vstr ""))))
    let name := jsOrV (fld s.productName) (jsOrV (fld s.name)
      (jsOrV (fld s.product_name) (.vstr "")))
    let category := jsOrV (fld s.category) (jsOrV (fld s.productCategory) (.vstr ""))
    let price := numOr (toNumber jp (jsOrV (fld s.price) (jsOrV (fld s.priceTotal)
      (jsOrV (fld s.unitPrice) (.vnum (.fin 0)))))) 0
    let quantity := numOr (toNumber jp (jsOrV (fld s.quantity)
      (jsOrV (fld s.qty) (.vnum (.fin 1))))) 1
    let brand := jsOrV (fld s.brand) (.vstr "")
    let image := jsOrV (fld s.image) (jsOrV (fld s.imageUrl) (.vstr ""))
    some {
      SKU := some (if truthy id then .vstr (jsToString jp id) else .vstr "")
      productID := some (if truthy id then .vstr (jsToString jp id) else .vstr "")
      productName := some (jsOrV name (.vstr ""))
      productCategory := some (jsOrV category (.vstr ""))
      price := some (.vnum (.fin price))
      quantity := some (.vnum (.fin quantity))
      brand := some (jsOrV brand (.vstr ""))
      image := some (jsOrV image (.vstr ""))
    }

/-- The `custData` record attached to every event (`window.adl.buildCustData`). -/
structure CustData where
  customerID : String
  lang : String
  loginStatus : String
  platform : String
deriving DecidableEq, Repr

/-- The `webPageDetails` object: union of the fields written by the velora
builders (`brand`/`channel`/`pageName`/`pageType`/`pageUrl`, plus
`productCategory` on PDP) and by the aurora helper (`name`/`URL`). -/
structure WebPageDetails where
  brand : Option String := none
  channel : Option String := none
  pageName : Option String := none
  pageType : Option String := none
  pageUrl : Option String := none
  productCategory : Option JSVal := none
  name : Option String := none
  URL : Option String := none
deriving DecidableEq, Repr

/-- The `pageInfo` object of the aurora helper's `pageLoaded` events. -/
structure PageInfo where
  pageName : Option String := none
  pageURL : Option String := none
  server : Option String := none
deriving DecidableEq, Repr

/-- An order payload (carried opaque by the code; no claim inspects it). -/
structure OrderRec where
  orderID : Option String := none
  totalValue : Option ℚ := none
deriving DecidableEq, Repr

/-- The `xdmPageLoad.web` object. -/
structure XdmWeb where
  webPageDetails : Option WebPageDetails := none
  productDetails : Option (List (Option JSProduct)) := none
  order : Option OrderRec := none
deriving DecidableEq, Repr

/-- The `xdmPageLoad` object. -/
structure XdmPageLoad where
  custData : Option CustData := none
  web : Option XdmWeb := none
  pageInfo : Option PageInfo := none
deriving DecidableEq, Repr

/-- The `xdmActionDetails.web.webInteraction` object. -/
structure WebInteraction where
  brand : Option String := none
  channel : Option String := none
  linkName : Option String := none
  linkType : Option String := none
  linkPosition : Option String := none
  linkPageName : Option String := none
  linkURL : Option String := none
  productCategory : Option String := none
deriving DecidableEq, Repr

/-- The `xdmActionDetails` object (`web.webInteraction` wrapper). -/
structure XdmActionDetails where
  webInteraction : Option WebInteraction := none
deriving DecidableEq, Repr

/-- The `xdmCommerce` object of the commerce events in adl-utils. -/
structure XdmCommerce where
  product : Option JSProduct := none
  order : Option OrderRec := none
deriving DecidableEq, Repr

/-- The `xdm.commerce` object of the aurora helper's `buildXDMStructure`. -/
structure HelperCommerce where
  order : Option OrderRec := none
deriving DecidableEq, Repr

/-- The `xdm` object built by the aurora helper (`buildXDMStructure`). -/
structure HelperXdm where
  web : Option XdmWeb := none
  productListItems : Option (List (Option JSProduct)) := none
  commerce : Option HelperCommerce := none
deriving DecidableEq, Repr

/-- One entry of `window.adobeDataLayer`: a JS object whose keys are all
optional.  Only the keys read or written by the embedded functions are
modelled. -/
structure DLEvent where
  event : Option String := none
  custData : Option CustData := none
  xdmPageLoad : Option XdmPageLoad := none
  xdmActionDetails : Option XdmActionDetails := none
  xdm : Option HelperXdm := none
  xdmCommerce : Option XdmCommerce := none
  product : Option (List (Option JSProduct)) := none
  productDetails : Option (List (Option JSProduct)) := none
  order : Option OrderRec := none
  orderDetails : Option OrderRec := none
  timestamp : Option Nat := none
deriving DecidableEq, Repr

/-- A raw (JSON-serialized) value in sessionStorage: it either parses back
to the stored value or is malformed. -/
inductive Raw (α : Type) where
  | parses (a : α)
  | malformed
deriving DecidableEq, Repr

/-- The `safeJSONParse` from the XDM normalizer: `JSON.parse` wrapped in
try/catch, returning `null` on malformed input. -/
def safeJSONParse {α : Type} : Raw α → Option α
  | .parses a => some a
  | .malformed => none

/-- The sessionStorage keys used across the repository.  `none` = key
absent; `some r` = key present with raw content `r`. -/
structure Storage where
  auroraLastLinkClicked : Option (Raw DLEvent) := none
  auroraPageData : Option (Raw DLEvent) := none
  veloraPageData : Option (Raw DLEvent) := none
  veloraProductListItems : Option (Raw (List (Option JSProduct))) := none
  veloraCart : Option (Raw (List (Option JSProduct))) := none
  veloraOrder : Option (Raw OrderRec) := none
deriving DecidableEq, Repr

/-- The `window.user`. -/
structure UserRec where
  isLoggedIn : Bool := false
  id : String := ""
deriving DecidableEq, Repr

/-- One entry of the `products` catalog array in client.js. -/
structure CatalogProd where
  id : String
  sku : String
  name : String
  category : String
  brand : String
  price : ℚ
  image : String
deriving DecidableEq, Repr

/-- The ambient browser environment (read-only inputs).  The `…Ok` flags
model whether the corresponding host object can be accessed without
throwing (storage disabled, detached document, …). -/
structure Env where
  pathname : String := ""
  href : String := ""
  searchId : Option String := none
  title : String := ""
  ua : String := ""
  innerWidth : Nat := 0
  user : Option UserRec := none
  storageOk : Bool := true
  ambientOk : Bool := true
  documentOk : Bool := true
  locationOk : Bool := true
  adlPresent : Bool := true
  catalog : List CatalogProd := []
  searchPage : Option String := none
deriving DecidableEq, Repr

/-- The mutable system state: the in-memory Append Log
(`window.adobeDataLayer`), sessionStorage, the console-error channel, the
number of `preventDefault` calls made, and the navigations scheduled via
`setTimeout` (delay in ms, target URL) that have not fired yet. -/
structure SysState where
  log : List DLEvent := []
  storage : Storage := {}
  errlog : List String := []
  prevented : Nat := 0
  navPending : List (Nat × String) := []
deriving DecidableEq, Repr

/-- Boolean list-prefix test. -/
def charsLead : List Char → List Char → Bool
  | [], _ => true
  | _ :: _, [] => false
  | a :: as, b :: bs => a = b && charsLead as bs

/-- Boolean list-infix test. -/
def charsSub (sub : List Char) : List Char → Bool
  | [] => charsLead sub []
  | b :: bs => charsLead sub (b :: bs) || charsSub sub bs

/-- JavaScript `s.includes(sub)` / `s.indexOf(sub) !== -1`. -/
def jsIncludes (s sub : String) : Bool := charsSub sub.toList s.toList

/-- The `/Mobi|Android/i.test(ua)`. -/
def uaMobileTest (ua : String) : Bool :=
  jsIncludes ua.toLower "mobi" || jsIncludes ua.toLower "android"

/-- The `window.adl.buildCustData` (adl-utils): customer/session attributes;
the catch branch returns the guest/desktop defaults. -/
def buildCustData (env : Env) : CustData :=
  if env.ambientOk then
    let isMobile := (env.innerWidth ≠ 0 && env.innerWidth ≤ 768) || uaMobileTest env.ua
    { customerID :=
        match env.user with
        | some u => if u.id ≠ "" then u.id else ""
        | none => ""
      lang := "english"
      loginStatus :=
        if (env.user.map (·.isLoggedIn)).getD false then "logged-in" else "guest"
      platform := if isMobile then "mobile website" else "desktop website" }
  else
    { customerID := "", lang := "english", loginStatus := "guest"
      platform := "desktop website" }

/-- The `window.adl.getPageType` (adl-utils): page type from the current URL;
the catch branch (inaccessible location) yields `"home"`. -/
def adlGetPageType (env : Env) : String :=
  if env.locationOk then
    let path := if env.pathname ≠ "" then env.pathname else env.href
    if jsIncludes path "pdp.html" || (env.searchId.getD "") ≠ "" then "pdp"
    else if jsIncludes path "plp.html" then "category"
    else if jsIncludes path "cart.html" then "cart"
    else if jsIncludes path "checkout.html" then "checkout"
    else if jsIncludes path "payment.html" then "checkout"
    else if jsIncludes path "thankyou.html" then "confirmation"
    else if jsIncludes path "index.html" || path = "/" || path.endsWith "/" then "home"
    else "home"
  else "home"

/-- The `window.adl.getPageName` (adl-utils). -/
def adlGetPageName (env : Env) : String :=
  let pageType := adlGetPageType env
  if pageType = "home" then "home"
  else if pageType = "category" then "plp"
  else if pageType = "pdp" then "product"
  else if pageType = "cart" then "cart"
  else if pageType = "checkout" then "checkout"
  else if pageType = "confirmation" then "confirmation"
  else "home"

/-- Options argument of `window.adl.firePageLoaded`. -/
structure FireOpts where
  pageName : Option String := none
  pageType : Option String := none
  productDetails : Option JSProduct := none
deriving DecidableEq, Repr

/-- The `window.adl.firePageLoaded` (adl-utils): builds the `pageLoaded` event
and pushes it directly onto `window.adobeDataLayer`.  No duplicate check is
made and nothing is written to sessionStorage.  A throw inside the body
(inaccessible `window.location.href`, or `.toLowerCase()` applied to a
non-string `productID` in the PDP branch) is caught and logged, with no
event pushed. -/
def firePageLoaded (env : Env) (options : Option FireOpts)
    (st : SysState) : SysState :=
  let failed : SysState :=
    { st with errlog := st.errlog ++ ["ADL: Error firing pageLoaded event"] }
  if env.locationOk then
    let opts := options.getD {}
    let pageType := jsOrS opts.pageType (adlGetPageType env)
    let pageName := jsOrS opts.pageName (adlGetPageName env)
    let custData := buildCustData env
    let baseDetails : WebPageDetails :=
      { brand := some "velora", channel := some ("web|" ++ pageType)
        pageName := some pageName, pageType := some pageType
        pageUrl := some env.href }
    match (if pageType = "pdp" then opts.productDetails else none) with
    | some product =>
        match jsOrV (fld product.productID) (.vstr "") with
        | .vstr pid =>
          let details :=
            { baseDetails with
                pageName := some ("product:" ++ pid.toLower)
                productCategory := some (jsOrV (fld product.category) (.vstr "")) }
          let entry : JSProduct :=
            { productID := some (jsOrV (fld product.productID) (.vstr ""))
              sku := some (jsOrV (fld product.sku) (.vstr ""))
              productName := some (jsOrV (fld product.productName) (.vstr ""))
              brand := some (jsOrV (fld product.brand) (.vstr "velora"))
              category := some (jsOrV (fld product.category) (.vstr ""))
              price := some (jsOrV (fld product.price) (.vnum (.fin 0)))
              color := some (jsOrV (fld product.color) (.vstr ""))
              size := some (jsOrV (fld product.size) (.vstr ""))
              quantity := some (jsOrV (fld product.quantity) (.vnum (.fin 1)))
              currency := some (.vstr "USD") }
          let eventObject : DLEvent :=
            { event := some "pageLoaded"
              xdmPageLoad := some
                { custData := some custData
                  web := some { webPageDetails := some details
                                productDetails := some [some entry] } } }
          { st with log := st.log ++ [eventObject] }
        | _ => failed
    | none =>
      let eventObject : DLEvent :=
        { event := some "pageLoaded"
          xdmPageLoad := some
            { custData := some custData
              web := some { webPageDetails := some baseDetails } } }
      { st with log := st.log ++ [eventObject] }
  else failed

/-- Options object accepted by `window.adl.trackLinkClick` (legacy
signatures). -/
structure LinkOpts where
  linkName : Option String := none
  linkType : Option String := none
  linkPosition : Option String := none
  linkPageName : Option String := none
  linkURL : Option String := none
  shouldNavigate : Option Bool := none
deriving DecidableEq, Repr

/-- The three call shapes of `window.adl.trackLinkClick`, as discriminated
by the source's `typeof`/`preventDefault` checks: a browser event object
followed by an options object, an options object alone, or the positional
four-argument signature. -/
inductive TLCArg where
  | withEvent (opts : LinkOpts)
  | optsOnly (opts : LinkOpts)
  | positional (linkName : String) (linkType : Option String)
      (linkPosition : Option String) (linkPageName : Option String)
deriving DecidableEq, Repr

/-- The common tail of `window.adl.trackLinkClick`, shared by all three
call shapes: the link-name guard, construction of the `linkClicked` event,
the optional scheduled navigation, and the direct push onto the data
layer. -/
def trackLinkClickCore (env : Env) (linkName linkType linkPosition pageName
    linkURL : String) (shouldNavigate : Bool) (st1 : SysState) : SysState :=
  if linkName = "" then
    { st1 with errlog := st1.errlog ++ ["ADL: trackLinkClick requires linkName"] }
  else
    let eventObject : DLEvent :=
      { event := some "linkClicked"
        custData := some (buildCustData env)
        xdmActionDetails := some
          { webInteraction := some
              { brand := some "velora", channel := some ("web|" ++ pageName)
                linkName := some linkName, linkType := some linkType
                linkPosition := some linkPosition
                linkPageName := some pageName } } }
    let st2 :=
      if linkURL ≠ "" ∧ shouldNavigate = true then
        { st1 with navPending := st1.navPending ++ [(300, linkURL)] }
      else st1
    { st2 with log := st2.log ++ [eventObject] }

/-- The `window.adl.trackLinkClick` (adl-utils).  Per the source: the
event-object signature calls `preventDefault` whenever a link URL is
present; a missing/empty link name aborts with a console error and no
push; navigation to `linkURL` is scheduled via `setTimeout(…, 300)` only
when a URL is present and navigation is not suppressed; the event is
pushed directly onto the data layer and nothing is written to
sessionStorage. -/
def trackLinkClick (env : Env) (arg : TLCArg) (st : SysState) : SysState :=
  match arg with
  | .withEvent opts =>
    let linkURL := jsOrS opts.linkURL ""
    let st1 := if linkURL ≠ "" then { st with prevented := st.prevented + 1 } else st
    trackLinkClickCore env (opts.linkName.getD "") (jsOrS opts.linkType "nav")
      (jsOrS opts.linkPosition "") (jsOrS opts.linkPageName (adlGetPageName env))
      linkURL (opts.shouldNavigate ≠ some false) st1
  | .optsOnly opts =>
    trackLinkClickCore env (opts.linkName.getD "") (jsOrS opts.linkType "nav")
      (jsOrS opts.linkPosition "") (jsOrS opts.linkPageName (adlGetPageName env))
      (jsOrS opts.linkURL "") (opts.shouldNavigate ≠ some false) st
  | .positional nm lt lp lpn =>
    trackLinkClickCore env nm (jsOrS lt "nav") (jsOrS lp "")
      (jsOrS lpn (adlGetPageName env)) "" false st

/-- The `window.adl.trackAddToCart` (adl-utils): rejects a missing product or a
product with a falsy `productID` (console error, no push); otherwise pushes
an `addToCart` commerce event directly onto the data layer. -/
def trackAddToCart (env : Env) (product : Option JSProduct) (st : SysState) :
    SysState :=
  match product with
  | some p =>
    if truthy (fld p.productID) then
      let base : JSProduct :=
        { sku := some (jsOrV (fld p.sku) (.vstr ""))
          productID := p.productID
          productName := p.productName
          brand := some (jsOrV (fld p.brand) (.vstr "velora"))
          category := p.category
          color := some (jsOrV (fld p.color) (.vstr ""))
          size := some (jsOrV (fld p.size) (.vstr ""))
          price := p.price
          quantity := some (jsOrV (fld p.quantity) (.vnum (.fin 1)))
          currencyCode := some (.vstr "USD") }
      let withCta : JSProduct :=
        if truthy (fld p.linkPosition) || truthy (fld p.linkType) then
          { base with
              linkPosition := some (jsOrV (fld p.linkPosition) (.vstr ""))
              linkType := some (jsOrV (fld p.linkType) (.vstr "")) }
        else base
      let eventData : DLEvent :=
        { event := some "addToCart"
          custData := some (buildCustData env)
          xdmCommerce := some { product := some withCta } }
      { st with log := st.log ++ [eventData] }
    else
      { st with errlog := st.errlog ++
          ["ADL: trackAddToCart requires product with productID"] }
  | none =>
    { st with errlog := st.errlog ++
        ["ADL: trackAddToCart requires product with productID"] }

/-- The `window.adl.trackRemoveFromCart` (adl-utils): rejects a missing product
or a product with a falsy `productID`; otherwise pushes a `removeFromCart`
commerce event directly onto the data layer. -/
def trackRemoveFromCart (env : Env) (product : Option JSProduct)
    (st : SysState) : SysState :=
  match product with
  | some p =>
    if truthy (fld p.productID) then
      let entry : JSProduct :=
        { sku := some (jsOrV (fld p.sku) (.vstr ""))
          productID := p.productID
          productName := p.productName
          brand := some (jsOrV (fld p.brand) (.vstr "velora"))
          category := some (jsOrV (fld p.category) (.vstr ""))
          price := some (jsOrV (fld p.price) (.vnum (.fin 0)))
          color := some (jsOrV (fld p.color) (.vstr ""))
          size := some (jsOrV (fld p.size) (.vstr ""))
          quantity := some (jsOrV (fld p.quantity) (.vnum (.fin 1)))
          currencyCode := some (.vstr "USD") }
      let eventObject : DLEvent :=
        { event := some "removeFromCart"
          custData := some (buildCustData env)
          xdmCommerce := some { product := some entry } }
      { st with log := st.log ++ [eventObject] }
    else
      { st with errlog := st.errlog ++
          ["ADL: trackRemoveFromCart requires product with productID"] }
  | none =>
    { st with errlog := st.errlog ++
        ["ADL: trackRemoveFromCart requires product with productID"] }

/-- Timestamp-ensuring mutation of `localPushToDataLayer`:
`if (!obj.timestamp) obj.timestamp = Date.now()`. -/
def ensureTimestamp (now : Nat) (obj : DLEvent) : DLEvent :=
  if obj.timestamp = none then { obj with timestamp := some now } else obj

/-- The object that ends up in the log (and in storage) after
`localPushToDataLayer`: because the pushed reference is mutated before the
storage write, `pageLoaded`/`linkClicked` entries carry a timestamp. -/
def lpdlObj (now : Nat) (obj : DLEvent) : DLEvent :=
  if obj.event = some "linkClicked" ∨ obj.event = some "pageLoaded" then
    ensureTimestamp now obj
  else obj

/-- The `localPushToDataLayer` (adl-xdm-helper.js): pushes onto the data layer,
then — for `linkClicked` and `pageLoaded` events only — persists the event
under the matching sessionStorage key (`aurora_lastLinkClicked` /
`aurora_pageData`), swallowing storage failures.  The timestamp mutation
happens before the storage write, so the (aliased) log entry carries it
even when the write then fails. -/
def localPushToDataLayer (now : Nat) (env : Env) (obj : DLEvent)
    (st : SysState) : SysState :=
  let obj' := lpdlObj now obj
  let storage' :=
    if env.storageOk then
      if obj.event = some "linkClicked" then
        { st.storage with auroraLastLinkClicked := some (.parses obj') }
      else if obj.event = some "pageLoaded" then
        { st.storage with auroraPageData := some (.parses obj') }
      else st.storage
    else st.storage
  { st with log := st.log ++ [obj'], storage := storage' }

/-- Number of `pageLoaded` entries in the data layer. -/
def countPageLoaded (log : List DLEvent) : Nat :=
  (log.filter (fun e => e.event = some "pageLoaded")).length

/-- The `adlValidation.validateNoDuplicates` (adl-validation.js): counts events
by name and reports (returns `false`) when more than one `pageLoaded` event
is present; it never removes anything from the data layer. -/
def validateNoDuplicates (log : List DLEvent) : Bool :=
  ¬ countPageLoaded log > 1

/-- First `pageLoaded` entry of the data layer (`filter(...)[0]`). -/
def firstPageLoaded (log : List DLEvent) : Option DLEvent :=
  log.find? (fun e => e.event = some "pageLoaded")

/-- The `pageLoadEvent.xdmPageLoad && …web && …webPageDetails && ….pageType`
(a falsy/absent link in the chain yields the empty string, which matches
none of the compared page types). -/
def plPageType (e : DLEvent) : String :=
  ((e.xdmPageLoad.bind (·.web)).bind (·.webPageDetails) |>.bind (·.pageType)).getD ""

/-- Same chain for `pageName`. -/
def plPageName (e : DLEvent) : String :=
  ((e.xdmPageLoad.bind (·.web)).bind (·.webPageDetails) |>.bind (·.pageName)).getD ""

/-- The `…xdmPageLoad.web.productDetails` is a non-empty array. -/
def plHasProducts (e : DLEvent) : Bool :=
  match (e.xdmPageLoad.bind (·.web)).bind (·.productDetails) with
  | some l => l.length > 0
  | none => false

/-- The `adlValidation.validateProductDetails` (adl-validation.js): reads the
first `pageLoaded` event; product details should exist exactly on the page
types `pdp`, `cart`, `thankyou`, and on `checkout` only when the page name
is `checkout` (the cart-summary step; the payment page shares pageType
`checkout` but has pageName `payment`).  Returns `false` on a mismatch in
either direction. -/
def validateProductDetails (log : List DLEvent) : Bool :=
  match firstPageLoaded log with
  | none => false
  | some pl =>
    let pageType := plPageType pl
    let pageName := plPageName pl
    let shouldHaveProducts :=
      pageType = "pdp" || pageType = "cart" || pageType = "thankyou" ||
        (pageType = "checkout" && pageName = "checkout")
    let hasProducts := plHasProducts pl
    if shouldHaveProducts && !hasProducts then false
    else if !shouldHaveProducts && hasProducts then false
    else true

/-- The `getQueryParam` (XDM normalizer): `URLSearchParams` lookup wrapped in
try/catch returning `null` on failure.  Only the two parameters the code
reads (`id`, `page`) are modelled. -/
def getQueryParam (env : Env) (nm : String) : Option String :=
  if env.locationOk then
    if nm = "id" then env.searchId
    else if nm = "page" then env.searchPage
    else none
  else none

/-- The `findLatestDLEvent` (XDM normalizer): latest data-layer entry with the
given event name; for `pageLoaded`, an entry carrying an `xdmPageLoad` key
also matches. -/
def findLatestDLEvent (eventName : String) (log : List DLEvent) : Option DLEvent :=
  log.reverse.find? (fun ev =>
    ev.event = some eventName ||
      (eventName = "pageLoaded" && ev.xdmPageLoad.isSome))

/-- The `buildProductListItemsFromPDP` (XDM normalizer): tries, in order, the
product arrays of the latest `productDetail`/`pageLoaded` event
(`xdm.productListItems`, `xdmPageLoad.web.productDetails`, `product`,
`productDetails`), normalizing and filtering them; otherwise looks the
`id` query parameter up in the global catalog.  Returns `null` when no
source applies. -/
def buildProductListItemsFromPDP (jp : JsPrims) (env : Env)
    (log : List DLEvent) : Option (List (Option JSProduct)) :=
  let fromEvent : Option (List (Option JSProduct)) :=
    match (findLatestDLEvent "productDetail" log).orElse
        (fun _ => findLatestDLEvent "pageLoaded" log) with
    | some pdpEvent =>
      let list : Option (List (Option JSProduct)) :=
        (pdpEvent.xdm.bind (·.productListItems)).orElse (fun _ =>
          ((pdpEvent.xdmPageLoad.bind (·.web)).bind (·.productDetails)).orElse (fun _ =>
            pdpEvent.product.orElse (fun _ => pdpEvent.productDetails)))
      match list with
      | some l =>
        if l.length > 0 then
          some ((l.filterMap (normalizeProduct jp)).map some)
        else none
      | none => none
    | none => none
  match fromEvent with
  | some r => some r
  | none =>
    match getQueryParam env "id" with
    | some id =>
      if id ≠ "" then
        match env.catalog.find? (fun p => p.id = id) with
        | some found =>
          some [normalizeProduct jp (some
            { productID := some (.vstr ("VEL-" ++ found.id))
              sku := some (.vstr (if found.sku ≠ "" then found.sku else found.id))
              productName := some (.vstr found.name)
              productCategory := some (.vstr found.category)
              price := some (.vnum (.fin found.price))
              quantity := some (.vnum (.fin 1))
              brand := some (.vstr found.brand) })]
        | none => none
      else none
    | none => none

/-- The `buildProductListItemsFromCartOrStorage` (XDM normalizer): first the
persisted `velora_productListItems`, then the `velora_cart` structure, each
normalized and filtered; `null` when neither applies.  Depends only on the
storage-accessibility flag and the storage contents, never on the page. -/
def buildProductListItemsFromCartOrStorage (jp : JsPrims) (storageOk : Bool)
    (st : Storage) : Option (List (Option JSProduct)) :=
  let fromStored : Option (List (Option JSProduct)) :=
    if storageOk then
      match st.veloraProductListItems.bind safeJSONParse with
      | some stored =>
        if stored.length > 0 then
          some ((stored.filterMap (normalizeProduct jp)).map some)
        else none
      | none => none
    else none
  match fromStored with
  | some r => some r
  | none =>
    if storageOk then
      match (st.veloraCart.bind safeJSONParse).getD [] with
      | [] => none
      | cart =>
        -- a null cart entry makes the property reads throw, so the whole
        -- branch is abandoned by the surrounding catch
        if cart.any (·.isNone) then none
        else
          some ((cart.filterMap (fun c =>
            c.bind (fun cp =>
              normalizeProduct jp (some
                { productID :=
                    some (if truthy (fld cp.id) then
                      .vstr ("VEL-" ++ jsToString jp (fld cp.id))
                    else jsOrV (fld cp.productID) (.vstr ""))
                  sku := some (jsOrV (fld cp.sku) (fld cp.id))
                  productName := some (jsOrV (fld cp.name)
                    (jsOrV (fld cp.productName) (.vstr "")))
                  productCategory := some (jsOrV (fld cp.category)
                    (jsOrV (fld cp.productCategory) (.vstr "")))
                  price := some (jsOrV (fld cp.price) (.vnum (.fin 0)))
                  quantity := some (jsOrV (fld cp.quantity)
                    (jsOrV (fld cp.qty) (.vnum (.fin 1))))
                  brand := some (jsOrV (fld cp.brand) (.vstr "")) })))).map some)
    else none

/-- The `persistProductListItems` (XDM normalizer): re-normalizes, filters and
writes the list under `velora_productListItems`; a storage failure is
swallowed, leaving storage unchanged. -/
def persistProductListItems (jp : JsPrims) (storageOk : Bool)
    (list : List (Option JSProduct)) (st : Storage) : Storage :=
  if storageOk then
    let safe := (list.filterMap (normalizeProduct jp)).map some
    { st with veloraProductListItems := some (.parses safe) }
  else st

/-- The `buildPageDetails` (XDM normalizer): persisted `velora_pageData` first,
then the latest `pageLoaded` data-layer entry (helper `xdm` path, then
`xdmPageLoad` path), and as a last resort a record derived from the ambient
document/location state.  The last resort reads `document.title` and
`window.location.href` unguarded, so it throws (`none`) when those are
inaccessible. -/
def buildPageDetails (env : Env) (st : Storage) (log : List DLEvent) :
    Option WebPageDetails :=
  let stored : Option WebPageDetails :=
    if env.storageOk then
      match st.veloraPageData.bind safeJSONParse with
      | some storedPage =>
        ((storedPage.xdmPageLoad.bind (·.web)).bind (·.webPageDetails))
      | none => none
    else none
  match stored with
  | some wpd => some wpd
  | none =>
    let pageEv := findLatestDLEvent "pageLoaded" log
    match (((pageEv.bind (·.xdm)).bind (·.web)).bind (·.webPageDetails)) with
    | some wpd => some wpd
    | none =>
      match (((pageEv.bind (·.xdmPageLoad)).bind (·.web)).bind (·.webPageDetails)) with
      | some wpd => some wpd
      | none =>
        if env.documentOk ∧ env.locationOk then
          let pageType :=
            if env.adlPresent then adlGetPageType env
            else jsOrS (env.pathname.splitOn "/").getLast? "home"
          some
            { pageName := some (if env.title ≠ "" then env.title ++ " | velora"
                else pageType ++ " | velora")
              pageType := some pageType
              pageUrl := some env.href
              brand := some "velora"
              channel := some ("web|" ++ (if pageType = "" then "web" else pageType)) }
        else none

/-- The scan of `buildOrderDetailsIfPresent` over the (reversed) data
layer: `some r` models an early `return r` from inside the loop, `none`
that the loop ran to completion. -/
def findOrderInDL : List DLEvent → Option (Option OrderRec)
  | [] => none
  | ev :: rest =>
    let en := ev.event.getD ""
    if en ≠ "" ∧ (jsIncludes en.toLower "purchase" ∨
        jsIncludes en.toLower "scpurchase" ∨ en = "orderCompleted") then
      some ((ev.order).orElse (fun _ =>
        (((ev.xdm.bind (·.commerce)).bind (·.order))).orElse (fun _ => ev.orderDetails)))
    else
      match ((ev.xdmPageLoad.bind (·.web)).bind (·.order)) with
      | some o => some (some o)
      | none => findOrderInDL rest

/-- The `buildOrderDetailsIfPresent` (XDM normalizer): only on
thank-you/confirmation pages; scans the data layer backwards for a
purchase-like event (returning, possibly, `null` right away) and falls
back to the persisted `velora_order`.  Any throw inside (inaccessible
location or storage) is caught, yielding `null`. -/
def buildOrderDetailsIfPresent (env : Env) (st : Storage) (log : List DLEvent) :
    Option OrderRec :=
  if env.locationOk then
    let pageType :=
      if env.adlPresent then adlGetPageType env
      else ((getQueryParam env "page").getD "").toLower
    let isThankYou := pageType = "confirmation" ∨
      jsIncludes env.pathname "thankyou" ∨ jsIncludes env.pathname "confirmation" ∨
      jsIncludes env.href "thankyou"
    if isThankYou then
      match findOrderInDL log.reverse with
      | some r => r
      | none =>
        if env.storageOk then st.veloraOrder.bind safeJSONParse else none
    else none
  else none

/-- The `pathname.indexOf('pdp') !== -1 || getQueryParam('id')` in
`buildUnifiedXDM` (note: `'pdp'`, not `'pdp.html'`). -/
def isPDPLike (env : Env) : Bool :=
  jsIncludes env.pathname "pdp" || (getQueryParam env "id").getD "" ≠ ""

/-- The unified view returned by the normalizer: consistent page details,
product list and (thank-you only) order, plus surfaced `custData`. -/
structure Unified where
  webPageDetails : WebPageDetails
  productListItems : List JSProduct
  order : Option OrderRec
  custData : Option CustData
deriving DecidableEq, Repr

/-- The `buildUnifiedXDM` (XDM normalizer).  `none` models an uncaught throw
(only `buildPageDetails`' last resort can throw; everything after it is
guarded), in which case no storage write has happened yet.  On a
product-detail-like page the captured product list is persisted; the
result also returns the (possibly updated) storage. -/
def buildUnifiedXDM (jp : JsPrims) (env : Env) (st : Storage)
    (log : List DLEvent) : Option (Unified × Storage) :=
  match buildPageDetails env st log with
  | none => none
  | some wpd =>
    let pst : Option (List (Option JSProduct)) × Storage :=
      if env.locationOk then
        if isPDPLike env then
          match buildProductListItemsFromPDP jp env log with
          | some l =>
            (some l,
              if l.length > 0 then persistProductListItems jp env.storageOk l st
              else st)
          | none => (none, st)
        else (none, st)
      else (none, st)
    match pst with
    | (products, st1) =>
      let products2 : List (Option JSProduct) :=
        match products with
        | some l =>
          if l.length > 0 then l
          else (buildProductListItemsFromCartOrStorage jp env.storageOk st1).getD []
        | none => (buildProductListItemsFromCartOrStorage jp env.storageOk st1).getD []
      let finalProducts := products2.filterMap (normalizeProduct jp)
      let order := buildOrderDetailsIfPresent env st1 log
      let custData := if env.adlPresent then some (buildCustData env) else none
      some ({ webPageDetails := wpd, productListItems := finalProducts
              order := order, custData := custData }, st1)

/-- The empty/default shape returned by `getUnifiedXDM` on failure:
empty page details, empty product list, no order, no custData. -/
def emptyUnified : Unified :=
  { webPageDetails := {}, productListItems := [], order := none, custData := none }

/-- The `window.adlXDM.getUnifiedXDM` (XDM normalizer): `buildUnifiedXDM`
wrapped in try/catch; on any internal failure it returns the empty/default
shape and leaves storage as it was. -/
def getUnifiedXDM (jp : JsPrims) (env : Env) (st : Storage)
    (log : List DLEvent) : Unified × Storage :=
  match buildUnifiedXDM jp env st log with
  | some r => r
  | none => (emptyUnified, st)

/-- Reading one Persisted Snapshot entry back: absent key, disabled
storage, or a malformed value all yield `none` (snapshot treated as
absent). -/
def restoreSnapshotEvent (storageOk : Bool) (cell : Option (Raw DLEvent)) :
    Option DLEvent :=
  if storageOk then cell.bind safeJSONParse else none

/-- Modelled from the spec: the Continuity Orchestrator's page-activation
restoration step (spec §4.1 and the acdl-spec Restoration Flow).  The
per-page activation scripts that perform it live in the repository's HTML
pages, which are not under src/; only the persistence half
(`localPushToDataLayer`) and the event builders are.  Per the spec's
contract the step replays, in order, the persisted `linkClicked` event (if
present) and the persisted `pageLoaded` event (if present) into the fresh
Append Log, then appends the current page's newly constructed `pageLoaded`
event through `localPushToDataLayer`, which also overwrites the persisted
page snapshot. -/
def firePageActivation (now : Nat) (env : Env) (newPageLoad : DLEvent)
    (st : SysState) : SysState :=
  let st1 :=
    match restoreSnapshotEvent env.storageOk st.storage.auroraLastLinkClicked with
    | some e => { st with log := st.log ++ [e] }
    | none => st
  let st2 :=
    match restoreSnapshotEvent env.storageOk st1.storage.auroraPageData with
    | some e => { st1 with log := st1.log ++ [e] }
    | none => st1
  localPushToDataLayer now env newPageLoad st2

/-! ## Basic lemmas about the JS value model -/

@[simp]
theorem fld_none : fld none = .vundefined := rfl

@[simp]
theorem fld_some (v : JSVal) : fld (some v) = v := rfl

@[simp]
theorem jsOrV_vundefined (b : JSVal) : jsOrV .vundefined b = b := by
  simp [jsOrV, truthy]

theorem jsOrV_vstr (t : String) (b : JSVal) :
    jsOrV (.vstr t) b = if t = "" then b else .vstr t := by
  by_cases h : t = "" <;> simp [jsOrV, truthy, h]

theorem jsOrV_vnum_fin (q : ℚ) (b : JSVal) :
    jsOrV (.vnum (.fin q)) b = if q = 0 then b else .vnum (.fin q) := by
  by_cases h : q = 0 <;> simp [jsOrV, truthy, h]

@[simp]
theorem truthy_vstr_empty : truthy (.vstr "") = false := rfl

/-- Re-applying `x || ''` to a value that already went through `x || ''`
changes nothing. -/
theorem jsOrV_empty_idem (a : JSVal) :
    jsOrV (jsOrV a (.vstr "")) (.vstr "") = jsOrV a (.vstr "") := by
  by_cases h : truthy a = true <;> simp [jsOrV, h]

theorem numOr_ne_zero (n : JNum) : numOr n 1 ≠ 0 := by
  cases n with
  | fin q => by_cases h : q = 0 <;> simp [numOr, h]
  | nan => simp [numOr]

theorem jsOrV_pos {a : JSVal} (h : truthy a = true) (b : JSVal) :
    jsOrV a b = a := by simp [jsOrV, h]

/-- Renormalizing the canonical id/SKU field reproduces it. -/
theorem idRenorm (jp : JsPrims) (v : JSVal) :
    (if truthy (jsOrV (if truthy v = true then JSVal.vstr (jsToString jp v) else .vstr "")
        (jsOrV (if truthy v = true then JSVal.vstr (jsToString jp v) else .vstr "")
          (.vstr ""))) = true then
      JSVal.vstr (jsToString jp
        (jsOrV (if truthy v = true then JSVal.vstr (jsToString jp v) else .vstr "")
          (jsOrV (if truthy v = true then JSVal.vstr (jsToString jp v) else .vstr "")
            (.vstr ""))))
    else JSVal.vstr "") =
    (if truthy v = true then JSVal.vstr (jsToString jp v) else .vstr "") := by
  by_cases hv : truthy v = true
  · simp only [hv, if_true]
    by_cases ht : jsToString jp v = ""
    · rw [ht]; simp [jsOrV]
    · have htr : truthy (JSVal.vstr (jsToString jp v)) = true := by
        simp [truthy, ht]
      rw [jsOrV_pos htr, if_pos htr]
      rfl
  · simp [hv, jsOrV]

@[simp]
theorem toNumber_vnum (jp : JsPrims) (m : JNum) : toNumber jp (.vnum m) = m := rfl

@[simp]
theorem numOr_fin (q d : ℚ) : numOr (.fin q) d = if q = 0 then d else q := rfl

/-- Renormalizing the canonical price field reproduces it. -/
theorem priceRenorm (jp : JsPrims) (n : JNum) :
    numOr (toNumber jp (jsOrV (.vnum (.fin (numOr n 0))) (.vnum (.fin 0)))) 0 =
      numOr n 0 := by
  by_cases h : numOr n 0 = 0
  · rw [h]; simp [jsOrV_vnum_fin]
  · rw [jsOrV_vnum_fin, if_neg h]; simp [h]

/-- Renormalizing the canonical quantity field reproduces it. -/
theorem qtyRenorm (jp : JsPrims) (n : JNum) :
    numOr (toNumber jp (jsOrV (.vnum (.fin (numOr n 1))) (.vnum (.fin 1)))) 1 =
      numOr n 1 := by
  have h := numOr_ne_zero n
  rw [jsOrV_vnum_fin, if_neg h]; simp [h]

/-- C4: product-descriptor normalization is idempotent — for every input
descriptor (and every choice of the JS string/number conversion
primitives), `normalizeProduct (normalizeProduct x) = normalizeProduct x`. -/
theorem C4_normalizeProduct_idem (jp : JsPrims) (x : Option JSProduct) :
    normalizeProduct jp (normalizeProduct jp x) = normalizeProduct jp x := by
  cases x with
  | none => rfl
  | some s =>
    simp only [normalizeProduct, fld_none, fld_some, jsOrV_vundefined]
    simp only [jsOrV_empty_idem, idRenorm, priceRenorm, qtyRenorm]

theorem countPageLoaded_append (l₁ l₂ : List DLEvent) :
    countPageLoaded (l₁ ++ l₂) = countPageLoaded l₁ + countPageLoaded l₂ := by
  simp [countPageLoaded, List.filter_append]

/-- C2 (counterexample): duplicate `pageLoaded` events are not suppressed.
Firing the pageLoad builder twice during one activation (the repository's
own docs record exactly this bug on the Thank You page) leaves two
`pageLoaded` events in the Append Log; `validateNoDuplicates` merely
reports the duplication by returning `false`, removing nothing. -/
theorem C2_counterexample :
    countPageLoaded (firePageLoaded { pathname := "/index.html" } none
        (firePageLoaded { pathname := "/index.html" } none {})).log = 2 ∧
    validateNoDuplicates (firePageLoaded { pathname := "/index.html" } none
        (firePageLoaded { pathname := "/index.html" } none {})).log = false ∧
    (firePageLoaded { pathname := "/index.html" } none
        (firePageLoaded { pathname := "/index.html" } none {})).log.length = 2 := by
  refine ⟨by decide, by decide, by decide⟩

/-- C2 (amended): a pageLoad-builder call that completes without a console
error appends exactly one `pageLoaded` event to the Append Log (so an
activation script that fires it exactly once contributes exactly one); the
builder never removes `pageLoaded` events; and `validateNoDuplicates`
returns `true` exactly when the log carries at most one `pageLoaded` event
— duplicates are detected and reported, not suppressed. -/
theorem C2_pageLoad_once_per_call (env : Env) (opts : Option FireOpts)
    (st : SysState) (log : List DLEvent) :
    ((firePageLoaded env opts st).errlog = st.errlog →
      countPageLoaded (firePageLoaded env opts st).log =
        countPageLoaded st.log + 1) ∧
    countPageLoaded st.log ≤ countPageLoaded (firePageLoaded env opts st).log ∧
    (validateNoDuplicates log = true ↔ countPageLoaded log ≤ 1) := by
  have herr : ∀ msg, ¬ (st.errlog ++ [msg] = st.errlog) := by
    intro msg h
    have := congrArg List.length h
    simp at this
  refine ⟨?_, ?_, ?_⟩
  · intro h
    unfold firePageLoaded at h ⊢
    by_cases hloc : env.locationOk = true
    · simp only [hloc, if_true] at h ⊢
      rcases hpd : (if (jsOrS (opts.getD {}).pageType (adlGetPageType env)) = "pdp"
          then (opts.getD {}).productDetails else none) with _ | product
      · simp only [hpd] at h ⊢
        simp [countPageLoaded_append, countPageLoaded]
      · simp only [hpd] at h ⊢
        rcases hid : jsOrV (fld product.productID) (.vstr "") with s | n | b | _ | _ <;>
          simp only [hid] at h ⊢ <;>
          first
            | exact absurd h (herr _)
            | simp [countPageLoaded_append, countPageLoaded]
    · simp only [hloc] at h ⊢
      exact absurd h (herr _)
  · unfold firePageLoaded
    by_cases hloc : env.locationOk = true
    · simp only [hloc, if_true]
      rcases hpd : (if (jsOrS (opts.getD {}).pageType (adlGetPageType env)) = "pdp"
          then (opts.getD {}).productDetails else none) with _ | product
      · simp [countPageLoaded_append]
      · rcases hid : jsOrV (fld product.productID) (.vstr "") with s | n | b | _ | _ <;>
          simp [hid, countPageLoaded_append]
    · simp [hloc]
  · constructor
    · intro h
      simp [validateNoDuplicates] at h
      omega
    · intro h
      simp [validateNoDuplicates]
      omega

/-- Witness for C2's amended theorem: a concrete home-page activation whose
single builder call completes without error appends exactly one
`pageLoaded` event to the empty log. -/
theorem C2_pageLoad_once_per_call_witness :
    countPageLoaded (firePageLoaded { pathname := "/index.html" } none {}).log =
      countPageLoaded ({} : SysState).log + 1 :=
  (C2_pageLoad_once_per_call { pathname := "/index.html" } none {} []).1 (by decide)

/-- C1: for every page activation (fresh Append Log) and every snapshot
state, the restoration step produces a log whose entries are, in order:
the persisted linkClick event if present, then the persisted pageLoad
event if present, then the newly constructed pageLoad event for the
current page (its timestamp ensured by the persistence helper). -/
theorem C1_restoration_order (now : Nat) (env : Env) (newPageLoad : DLEvent)
    (st : SysState) (hfresh : st.log = []) :
    (firePageActivation now env newPageLoad st).log =
      (restoreSnapshotEvent env.storageOk st.storage.auroraLastLinkClicked).toList ++
        (restoreSnapshotEvent env.storageOk st.storage.auroraPageData).toList ++
        [lpdlObj now newPageLoad] := by
  unfold firePageActivation localPushToDataLayer
  rcases h1 : restoreSnapshotEvent env.storageOk st.storage.auroraLastLinkClicked
      with _ | e1 <;>
    rcases h2 : restoreSnapshotEvent env.storageOk st.storage.auroraPageData
      with _ | e2 <;>
    simp [h1, h2, hfresh]

/-- Witness for C1: an activation with both snapshot entries present
replays them in order before the new pageLoad event. -/
theorem C1_restoration_order_witness :
    (firePageActivation 7 {}
        { event := some "pageLoaded", timestamp := some 3 }
        { storage :=
            { auroraLastLinkClicked :=
                some (.parses { event := some "linkClicked", timestamp := some 1 })
              auroraPageData :=
                some (.parses { event := some "pageLoaded", timestamp := some 2 }) } }).log =
      (restoreSnapshotEvent true
          (some (.parses { event := some "linkClicked", timestamp := some 1 }))).toList ++
        (restoreSnapshotEvent true
          (some (.parses { event := some "pageLoaded", timestamp := some 2 }))).toList ++
        [lpdlObj 7 { event := some "pageLoaded", timestamp := some 3 }] :=
  C1_restoration_order 7 {} { event := some "pageLoaded", timestamp := some 3 }
    { storage :=
        { auroraLastLinkClicked :=
            some (.parses { event := some "linkClicked", timestamp := some 1 })
          auroraPageData :=
            some (.parses { event := some "pageLoaded", timestamp := some 2 }) } }
    rfl

/-- C3: the unified-view operation is a total function — for every data
layer, storage and page context it returns a value (never raises), and on
any internal failure of `buildUnifiedXDM` it returns the empty default
shape (empty page details, empty product list, no order) leaving storage
untouched; such a failure is reachable (inaccessible document with no
persisted page data and no `pageLoaded` event). -/
theorem C3_getUnifiedXDM_total_default (jp : JsPrims) (env : Env)
    (st : Storage) (log : List DLEvent) :
    ((∃ u st', buildUnifiedXDM jp env st log = some (u, st') ∧
        getUnifiedXDM jp env st log = (u, st')) ∨
      (buildUnifiedXDM jp env st log = none ∧
        getUnifiedXDM jp env st log = (emptyUnified, st))) ∧
    emptyUnified.webPageDetails = ({} : WebPageDetails) ∧
    emptyUnified.productListItems = [] ∧
    emptyUnified.order = none ∧
    buildUnifiedXDM jp { documentOk := false } {} [] = none := by
  refine ⟨?_, rfl, rfl, rfl, rfl⟩
  rcases h : buildUnifiedXDM jp env st log with _ | ⟨u, st'⟩
  · exact Or.inr ⟨rfl, by simp [getUnifiedXDM, h]⟩
  · exact Or.inl ⟨u, st', rfl, by simp [getUnifiedXDM, h]⟩

/-- C5 (counterexample): not every appended linkClick event overwrites the
Persisted Snapshot.  A (legacy options-object) call to
`window.adl.trackLinkClick` appends a `linkClicked` event to the Append
Log yet leaves every sessionStorage key untouched — in particular the
last-linkClick snapshot key still holds no event. -/
theorem C5_counterexample :
    (trackLinkClick { pathname := "/index.html" }
        (.optsOnly { linkName := some "Shop" }) {}).log.length = 1 ∧
    ((trackLinkClick { pathname := "/index.html" }
        (.optsOnly { linkName := some "Shop" }) {}).log.head?.bind (·.event)) =
      some "linkClicked" ∧
    (trackLinkClick { pathname := "/index.html" }
        (.optsOnly { linkName := some "Shop" }) {}).storage = ({} : Storage) ∧
    ({} : Storage).auroraLastLinkClicked = none := by
  refine ⟨by decide, by decide, by decide, rfl⟩

theorem trackLinkClickCore_storage (env : Env) (a b c d e : String) (f : Bool)
    (st1 : SysState) :
    (trackLinkClickCore env a b c d e f st1).storage = st1.storage := by
  unfold trackLinkClickCore
  split_ifs <;> rfl

theorem trackLinkClick_storage (env : Env) (arg : TLCArg) (st : SysState) :
    (trackLinkClick env arg st).storage = st.storage := by
  rcases arg with opts | opts | ⟨nm, lt, lp, lpn⟩
  · simp only [trackLinkClick, trackLinkClickCore_storage]
    split_ifs <;> rfl
  · simp only [trackLinkClick, trackLinkClickCore_storage]
  · simp only [trackLinkClick, trackLinkClickCore_storage]

/-- C5 (amended): appends that go through `localPushToDataLayer` overwrite
exactly the matching snapshot key (`aurora_lastLinkClicked` for
`linkClicked`, `aurora_pageData` for `pageLoaded`) with the appended
event, leaving every other snapshot key unchanged, and change no key for
other event kinds; the `window.adl` builders (`trackLinkClick`,
`firePageLoaded`, `trackAddToCart`, `trackRemoveFromCart`) push directly
and never touch session storage. -/
theorem C5_snapshot_overwrite (now : Nat) (env : Env) (obj : DLEvent)
    (st : SysState) (arg : TLCArg) (opts : Option FireOpts)
    (p : Option JSProduct) :
    (env.storageOk = true → obj.event = some "linkClicked" →
      (localPushToDataLayer now env obj st).storage =
        { st.storage with
            auroraLastLinkClicked := some (.parses (lpdlObj now obj)) }) ∧
    (env.storageOk = true → obj.event = some "pageLoaded" →
      (localPushToDataLayer now env obj st).storage =
        { st.storage with auroraPageData := some (.parses (lpdlObj now obj)) }) ∧
    (obj.event ≠ some "linkClicked" → obj.event ≠ some "pageLoaded" →
      (localPushToDataLayer now env obj st).storage = st.storage) ∧
    (localPushToDataLayer now env obj st).log = st.log ++ [lpdlObj now obj] ∧
    (trackLinkClick env arg st).storage = st.storage ∧
    (firePageLoaded env opts st).storage = st.storage ∧
    (trackAddToCart env p st).storage = st.storage ∧
    (trackRemoveFromCart env p st).storage = st.storage := by
  refine ⟨?_, ?_, ?_, rfl, ?_, ?_, ?_, ?_⟩
  · intro hs he
    simp [localPushToDataLayer, hs, he]
  · intro hs he
    have : ¬ obj.event = some "linkClicked" := by simp [he]
    simp [localPushToDataLayer, hs, he, this]
  · intro h1 h2
    by_cases hs : env.storageOk = true <;>
      simp [localPushToDataLayer, hs, h1, h2]
  · exact trackLinkClick_storage env arg st
  · unfold firePageLoaded
    by_cases hloc : env.locationOk = true
    · simp only [hloc, if_true]
      rcases hpd : (if (jsOrS (opts.getD {}).pageType (adlGetPageType env)) = "pdp"
          then (opts.getD {}).productDetails else none) with _ | product
      · simp [hpd]
      · rcases hid : jsOrV (fld product.productID) (.vstr "") with s | n | b | _ | _ <;>
          simp [hpd, hid]
    · simp [hloc]
  · unfold trackAddToCart
    rcases p with _ | q
    · rfl
    · dsimp only
      split <;> rfl
  · unfold trackRemoveFromCart
    rcases p with _ | q
    · rfl
    · dsimp only
      split <;> rfl

/-- Witness for C5's amended theorem: a concrete `linkClicked` append via
`localPushToDataLayer` overwrites exactly the last-linkClick snapshot
key. -/
theorem C5_snapshot_overwrite_witness :
    (localPushToDataLayer 9 {} { event := some "linkClicked" } {}).storage =
      { ({} : Storage) with
          auroraLastLinkClicked :=
            some (.parses (lpdlObj 9 { event := some "linkClicked" })) } :=
  (C5_snapshot_overwrite 9 {} { event := some "linkClicked" } {}
    (.positional "" none none none) none none).1 rfl rfl

/-- C7: every event-builder call with a required identifying field absent
reports a console error and leaves the Append Log unchanged — a linkClick
with no (or empty) link name in any of the three call shapes, and an
addToCart/removeFromCart with a missing product or falsy product
identifier. -/
theorem C7_builders_reject_missing_fields (env : Env) (st : SysState) :
    (∀ opts : LinkOpts, opts.linkName.getD "" = "" →
      (trackLinkClick env (.withEvent opts) st).log = st.log ∧
      (trackLinkClick env (.withEvent opts) st).errlog =
        st.errlog ++ ["ADL: trackLinkClick requires linkName"]) ∧
    (∀ opts : LinkOpts, opts.linkName.getD "" = "" →
      (trackLinkClick env (.optsOnly opts) st).log = st.log ∧
      (trackLinkClick env (.optsOnly opts) st).errlog =
        st.errlog ++ ["ADL: trackLinkClick requires linkName"]) ∧
    (∀ lt lp lpn : Option String,
      (trackLinkClick env (.positional "" lt lp lpn) st).log = st.log ∧
      (trackLinkClick env (.positional "" lt lp lpn) st).errlog =
        st.errlog ++ ["ADL: trackLinkClick requires linkName"]) ∧
    ((trackAddToCart env none st).log = st.log ∧
      (trackAddToCart env none st).errlog =
        st.errlog ++ ["ADL: trackAddToCart requires product with productID"]) ∧
    (∀ p : JSProduct, truthy (fld p.productID) = false →
      (trackAddToCart env (some p) st).log = st.log ∧
      (trackAddToCart env (some p) st).errlog =
        st.errlog ++ ["ADL: trackAddToCart requires product with productID"]) ∧
    ((trackRemoveFromCart env none st).log = st.log ∧
      (trackRemoveFromCart env none st).errlog =
        st.errlog ++ ["ADL: trackRemoveFromCart requires product with productID"]) ∧
    (∀ p : JSProduct, truthy (fld p.productID) = false →
      (trackRemoveFromCart env (some p) st).log = st.log ∧
      (trackRemoveFromCart env (some p) st).errlog =
        st.errlog ++ ["ADL: trackRemoveFromCart requires product with productID"]) := by
  refine ⟨?_, ?_, ?_, ⟨rfl, rfl⟩, ?_, ⟨rfl, rfl⟩, ?_⟩
  · intro opts h
    simp only [trackLinkClick, trackLinkClickCore, h, if_pos]
    split_ifs <;> exact ⟨rfl, rfl⟩
  · intro opts h
    simp [trackLinkClick, trackLinkClickCore, h]
  · intro lt lp lpn
    simp [trackLinkClick, trackLinkClickCore]
  · intro p h
    simp [trackAddToCart, h]
  · intro p h
    simp [trackRemoveFromCart, h]

/-- Witness for C7: a concrete linkClick call without a link name and a
concrete addToCart call without a product identifier leave the log
unchanged. -/
theorem C7_builders_reject_missing_fields_witness :
    (trackLinkClick {} (.optsOnly { linkURL := some "plp.html" }) {}).log =
      ({} : SysState).log ∧
    (trackAddToCart {} (some { productName := some (.vstr "Shirt") }) {}).log =
      ({} : SysState).log :=
  ⟨((C7_builders_reject_missing_fields {} {}).2.1
      { linkURL := some "plp.html" } rfl).1,
    ((C7_builders_reject_missing_fields {} {}).2.2.2.2.1
      { productName := some (.vstr "Shirt") } rfl).1⟩

/-- C8 (counterexample): the claim fails in two ways on concrete calls.
(1) A linkClick call carrying a browser event, a target URL and
unsuppressed navigation appends the event and schedules the 300ms
navigation, but performs no storage write at all — the last-linkClick
snapshot key still holds nothing, so the event's "storage write" never
completes before navigation.  (2) The same call shape with an absent link
name still calls `preventDefault`, yet appends nothing and schedules no
navigation (the user is left on a page whose default navigation was
suppressed). -/
theorem C8_counterexample :
    ((trackLinkClick { pathname := "/index.html" }
        (.withEvent { linkName := some "Shop Jackets", linkURL := some "plp.html" })
        {}).prevented = 1 ∧
      (trackLinkClick { pathname := "/index.html" }
        (.withEvent { linkName := some "Shop Jackets", linkURL := some "plp.html" })
        {}).navPending = [(300, "plp.html")] ∧
      (trackLinkClick { pathname := "/index.html" }
        (.withEvent { linkName := some "Shop Jackets", linkURL := some "plp.html" })
        {}).log.length = 1 ∧
      (trackLinkClick { pathname := "/index.html" }
        (.withEvent { linkName := some "Shop Jackets", linkURL := some "plp.html" })
        {}).storage.auroraLastLinkClicked = none) ∧
    ((trackLinkClick { pathname := "/index.html" }
        (.withEvent { linkURL := some "plp.html" }) {}).prevented = 1 ∧
      (trackLinkClick { pathname := "/index.html" }
        (.withEvent { linkURL := some "plp.html" }) {}).navPending = [] ∧
      (trackLinkClick { pathname := "/index.html" }
        (.withEvent { linkURL := some "plp.html" }) {}).log = []) := by
  exact ⟨⟨by decide, by decide, by decide, by decide⟩,
    ⟨by decide, by decide, by decide⟩⟩

/-- C8 (amended): a linkClick builder call that carries a browser event
object, a target URL, a non-empty link name and unsuppressed navigation
suppresses the default navigation (`preventDefault` once), appends the
`linkClicked` event to the Append Log, and merely schedules the
programmatic navigation to the target URL with the fixed 300ms delay — so
at return the event is appended while the navigation has not yet occurred;
the builder itself performs no session-storage write (storage is unchanged
in the resulting state). -/
theorem C8_linkClick_navigation (env : Env) (st : SysState) (opts : LinkOpts)
    (hname : opts.linkName.getD "" ≠ "")
    (hurl : jsOrS opts.linkURL "" ≠ "")
    (hnav : opts.shouldNavigate ≠ some false) :
    ∃ e, e.event = some "linkClicked" ∧
      trackLinkClick env (.withEvent opts) st =
        { st with
            prevented := st.prevented + 1
            navPending := st.navPending ++ [(300, jsOrS opts.linkURL "")]
            log := st.log ++ [e] } := by
  refine ⟨{ event := some "linkClicked"
            custData := some (buildCustData env)
            xdmActionDetails := some
              { webInteraction := some
                  { brand := some "velora"
                    channel := some ("web|" ++ jsOrS opts.linkPageName (adlGetPageName env))
                    linkName := some (opts.linkName.getD "")
                    linkType := some (jsOrS opts.linkType "nav")
                    linkPosition := some (jsOrS opts.linkPosition "")
                    linkPageName := some (jsOrS opts.linkPageName (adlGetPageName env)) } } },
    rfl, ?_⟩
  simp only [trackLinkClick, trackLinkClickCore]
  rw [if_pos hurl, if_neg (by simpa using hname), if_pos ⟨hurl, by simp [hnav]⟩]

/-- Witness for C8's amended theorem at a concrete call. -/
theorem C8_linkClick_navigation_witness :
    ∃ e, e.event = some "linkClicked" ∧
      trackLinkClick {} (.withEvent { linkName := some "Shop", linkURL := some "plp.html" }) {} =
        { ({} : SysState) with
            prevented := ({} : SysState).prevented + 1
            navPending := ({} : SysState).navPending ++
              [(300, jsOrS (some "plp.html") "")]
            log := ({} : SysState).log ++ [e] } :=
  C8_linkClick_navigation {} {} { linkName := some "Shop", linkURL := some "plp.html" }
    (by decide) (by decide) (by decide)

/-- C9: storage read/write failures are non-fatal.  On write failure the
event already pushed stays in the Append Log (no rollback) and storage is
simply unchanged; `safeJSONParse` swallows parse failures, a malformed
persisted page snapshot behaves exactly like an absent one, a snapshot
restore under failed or malformed storage yields nothing (as if no
snapshot existed), and the cart/storage product lookup under failed
storage yields nothing. -/
theorem C9_storage_failures_nonfatal (jp : JsPrims) (now : Nat) (env : Env)
    (obj : DLEvent) (st : SysState) (stg : Storage) (log : List DLEvent)
    (cell : Option (Raw DLEvent)) :
    (env.storageOk = false →
      (localPushToDataLayer now env obj st).log = st.log ++ [lpdlObj now obj] ∧
      (localPushToDataLayer now env obj st).storage = st.storage) ∧
    safeJSONParse (Raw.malformed : Raw DLEvent) = none ∧
    buildPageDetails env { stg with veloraPageData := some .malformed } log =
      buildPageDetails env { stg with veloraPageData := none } log ∧
    restoreSnapshotEvent false cell = none ∧
    restoreSnapshotEvent true (some .malformed) = none ∧
    buildProductListItemsFromCartOrStorage jp false stg = none := by
  refine ⟨?_, rfl, ?_, rfl, rfl, rfl⟩
  · intro h
    exact ⟨rfl, by simp [localPushToDataLayer, h]⟩
  · by_cases hs : env.storageOk = true <;>
      simp [buildPageDetails, safeJSONParse, hs]

/-- Witness for C9: with storage disabled, a concrete `linkClicked` append
still lands in the log and storage is untouched. -/
theorem C9_storage_failures_nonfatal_witness :
    (localPushToDataLayer 4 { storageOk := false }
        { event := some "linkClicked" } {}).log =
      ({} : SysState).log ++ [lpdlObj 4 { event := some "linkClicked" }] ∧
    (localPushToDataLayer 4 { storageOk := false }
        { event := some "linkClicked" } {}).storage = ({} : SysState).storage :=
  (C9_storage_failures_nonfatal { strToNum := fun _ => .nan, numToStr := fun _ => "" }
    4 { storageOk := false } { event := some "linkClicked" } {} {} [] none).1 rfl

/-- C10: a positional four-argument call to the link-click builder never
schedules a navigation and never calls `preventDefault` (the link URL is
forced empty and the navigation flag forced false); session storage is
untouched, and the only state change is the event append (or the error
report when the link name is empty). -/
theorem C10_positional_no_navigation (env : Env) (st : SysState) (nm : String)
    (lt lp lpn : Option String) :
    (trackLinkClick env (.positional nm lt lp lpn) st).navPending = st.navPending ∧
    (trackLinkClick env (.positional nm lt lp lpn) st).prevented = st.prevented ∧
    (trackLinkClick env (.positional nm lt lp lpn) st).storage = st.storage ∧
    ((trackLinkClick env (.positional nm lt lp lpn) st).log = st.log ∨
      ∃ e, e.event = some "linkClicked" ∧
        (trackLinkClick env (.positional nm lt lp lpn) st).log = st.log ++ [e]) := by
  by_cases h : nm = ""
  · simp [trackLinkClick, trackLinkClickCore, h]
  · simp only [trackLinkClick, trackLinkClickCore, if_neg h]
    have hno : ¬(("" : String) ≠ "" ∧ (false : Bool) = true) := by simp
    rw [if_neg hno]
    exact ⟨rfl, rfl, rfl, Or.inr ⟨_, rfl, rfl⟩⟩

/-- An arbitrary concrete instantiation of the JS string/number conversion
primitives, used only to evaluate closed runs of the normalizer. -/
def samplePrims : JsPrims := { strToNum := fun _ => .nan, numToStr := fun _ => "" }

/-- Modelled from the spec's page-type-to-product-policy table: products
expected on product-detail (`pdp`), cart and order-confirmation
(`thankyou`) pages, and on `checkout` pages only when the page identity is
the cart-summary step (page name `checkout`; the payment page shares the
`checkout` page type but has page name `payment`); empty on home,
product-list and payment pages. -/
def specShouldHaveProducts (pageType pageName : String) : Bool :=
  pageType = "pdp" || pageType = "cart" || pageType = "thankyou" ||
    (pageType = "checkout" && pageName = "checkout")

/-- C6 (counterexample): the unified view's product list is not empty on a
home page.  On a home-page activation (`adlGetPageType` = "home") with a
persisted product list in session storage, `getUnifiedXDM` returns a
non-empty product list — the page-type table is not enforced by the
unified-view path. -/
theorem C6_counterexample :
    adlGetPageType { pathname := "/index.html" } = "home" ∧
    (getUnifiedXDM samplePrims { pathname := "/index.html" }
        { veloraProductListItems := some (.parses [some
            { productID := some (.vstr "VEL-1"), SKU := some (.vstr "VEL-1")
              productName := some (.vstr "Classic Denim Jacket")
              productCategory := some (.vstr "Jackets")
              price := some (.vnum (.fin 2499)), quantity := some (.vnum (.fin 1))
              brand := some (.vstr "Velora"), image := some (.vstr "") }]) }
        []).1.productListItems.length = 1 := by
  exact ⟨by decide, by decide⟩

theorem validatePD_iff : ∀ s h : Bool,
    ((if s && !h then false else if !s && h then false else true) = true ↔
      h = s) := by decide

/-- C6 (amended): the page-type product policy of the table is enforced by
the validator, not by the unified view: `validateProductDetails` succeeds
exactly when the first `pageLoaded` event's product details match the
spec's table (non-empty precisely on pdp/cart/thankyou and on the
cart-summary checkout step), while on any non-product-detail page the
unified view's product list is just the persisted/cart-derived list,
independent of page type, with storage unchanged. -/
theorem C6_product_policy (jp : JsPrims) (env : Env) (stg : Storage)
    (log : List DLEvent) (u : Unified) (st' : Storage) :
    (validateProductDetails log = true ↔
      ∃ pl, firstPageLoaded log = some pl ∧
        plHasProducts pl = specShouldHaveProducts (plPageType pl) (plPageName pl)) ∧
    (env.locationOk = true → isPDPLike env = false →
      buildUnifiedXDM jp env stg log = some (u, st') →
      st' = stg ∧
      u.productListItems =
        ((buildProductListItemsFromCartOrStorage jp env.storageOk stg).getD
          []).filterMap (normalizeProduct jp)) := by
  constructor
  · rcases hfp : firstPageLoaded log with _ | pl
    · simp [validateProductDetails, hfp]
    · simp only [validateProductDetails, hfp, specShouldHaveProducts]
      rw [validatePD_iff]
      constructor
      · intro h
        exact ⟨pl, rfl, h⟩
      · rintro ⟨pl', hpl, h⟩
        obtain rfl : pl = pl' := by injection hpl
        exact h
  · intro hloc hpdp hbuild
    rcases hpd : buildPageDetails env stg log with _ | wpd
    · rw [buildUnifiedXDM, hpd] at hbuild
      simp at hbuild
    · rw [buildUnifiedXDM, hpd] at hbuild
      simp only [hloc, hpdp, if_true, Bool.false_eq_true, if_false] at hbuild
      have h2 := Option.some.inj hbuild
      rw [Prod.mk.injEq] at h2
      obtain ⟨hu, hst⟩ := h2
      subst hst
      exact ⟨rfl, by rw [← hu]⟩

/-- Witness for C6's amended theorem: a concrete log whose only
`pageLoaded` event is a cart page with one product detail passes the
validator, and a concrete home-page unified view equals the
storage-derived list. -/
theorem C6_product_policy_witness :
    validateProductDetails
        [{ event := some "pageLoaded"
           xdmPageLoad := some
             { web := some
                 { webPageDetails := some
                     { brand := some "velora", channel := some "web|cart"
                       pageName := some "cart", pageType := some "cart"
                       pageUrl := some "http://localhost/cart.html" }
                   productDetails := some [some { productID := some (.vstr "VEL-1") }] } } }] =
      true ∧
    (getUnifiedXDM samplePrims { pathname := "/index.html" } {} []).1.productListItems =
      ((buildProductListItemsFromCartOrStorage samplePrims true {}).getD
        []).filterMap (normalizeProduct samplePrims) := by
  constructor
  · exact (C6_product_policy samplePrims {} {} _ emptyUnified {}).1.mpr
      ⟨_, rfl, by decide⟩
  · exact ((C6_product_policy samplePrims { pathname := "/index.html" } {} []
      (getUnifiedXDM samplePrims { pathname := "/index.html" } {} []).1
      (getUnifiedXDM samplePrims { pathname := "/index.html" } {} []).2).2
      rfl (by decide) rfl).2

end Velora
